import Mathlib

/-!
# Verification of `src/store.rs` (matrix-sdk-crypto-wasm)

A shallow embedding of the store-selection logic (`StoreHandle::open`,
`StoreHandle::open_indexeddb`, `StoreHandle::open_with_key`), the
`SecretsBundle` lifecycle (`to_json` / `from_json` / `backup_bundle`), and
the handle-sharing operations (`Clone`, `IntoCryptoStore`).

Modelling conventions:
- The external IndexedDB backend (`matrix_sdk_indexeddb`) is a parameter: an
  oracle mapping a backend call to either an opened store or a backend error
  string.  Each store-opening function additionally returns the list of
  backend calls it attempted, so "performs no storage I/O" is the statement
  that this list is empty.
- Sensitive buffers (`store_key : Vec<u8>`, `store_passphrase : String`) are
  threaded explicitly: each function returns the final contents of the
  caller-supplied buffer next to its result.  `Zeroize::zeroize` overwrites
  every byte with zero, which we model pointwise.
- `Arc<DynCryptoStore>` is modelled by value: cloning an `Arc` yields a
  reference to the same backend instance, which the model renders as equality
  of the store value.
-/

namespace Store

/-- A byte buffer (`Vec<u8>`), each element a byte value. -/
abbrev Buf := List Nat

/-- `Zeroize::zeroize` on a byte buffer: every byte is overwritten with `0`
(`store.rs` line 122, via the `zeroize` crate). -/
def zeroizeBuf (b : Buf) : Buf :=
  List.replicate b.length 0

/-- `Zeroize::zeroize` on a `String`: every byte of the backing buffer is
overwritten with `0` (`store.rs` line 91). -/
def zeroizeStr (s : String) : String :=
  String.mk (s.data.map fun _ => Char.ofNat 0)

/-- An opened IndexedDB-backed crypto store, as returned by the external
`matrix_sdk_indexeddb::IndexeddbCryptoStore` open functions.  Only its
identity matters at this boundary; we record the database name it was opened
under. -/
structure IndexeddbCryptoStore where
  name : String
  deriving Repr, DecidableEq

/-- `DynCryptoStore`: the store backend held by a `StoreHandle` — either the
in-memory `MemoryStore` (with its key-value contents) or an IndexedDB-backed
store (`store.rs` lines 26-28, 59-72). -/
inductive DynCryptoStore
  | memory (contents : List (String × String))
  | indexeddb (store : IndexeddbCryptoStore)
  deriving Repr, DecidableEq

/-- `MemoryStore::new()` (`store.rs` line 70): a fresh, empty in-memory
store. -/
def MemoryStore.new : List (String × String) := []

/-- The name of the persistent (IndexedDB) database backing a store, if any.
A memory store is backed by no named persistent state. -/
def DynCryptoStore.persistentName : DynCryptoStore → Option String
  | .memory _ => none
  | .indexeddb s => some s.name

/-- A call into the external `matrix_sdk_indexeddb::IndexeddbCryptoStore`
backend (`store.rs` lines 85-88, 95, 124-128).  These are the only storage
I/O operations the file performs. -/
inductive BackendCall
  | openWithPassphrase (name : String) (passphrase : String)
  | openWithName (name : String)
  | openWithKey (name : String) (key : Buf)
  deriving Repr, DecidableEq

/-- The external backend, as an oracle: each call either yields an opened
store or fails with a backend error message
(`matrix_sdk_indexeddb::IndexeddbCryptoStoreError`). -/
abbrev Backend := BackendCall → Except String IndexeddbCryptoStore

/-- `JsError` results of the `StoreHandle` API, split by provenance:
`validation` for the explicit `JsError::new` raised on a bad key length
(`store.rs` line 120), `configuration` for the explicit `JsError::new` raised
on an inconsistent argument combination (`store.rs` lines 64-67), and
`storeOpen` for errors converted from the backend's
`IndexeddbCryptoStoreError`. -/
inductive JsError
  | validation (message : String)
  | configuration (message : String)
  | storeOpen (message : String)
  deriving Repr, DecidableEq

/-- `StoreHandle` (`store.rs` lines 26-28): a single `Arc<DynCryptoStore>`
reference to the backend fixed at open time. -/
structure StoreHandle where
  store : DynCryptoStore
  deriving Repr, DecidableEq

/-- `#[derive(Clone)]` on `StoreHandle` (`store.rs` line 25): clones the
`Arc`, yielding a handle referring to the same backend instance. -/
def StoreHandle.clone (h : StoreHandle) : StoreHandle := h

/-- `impl IntoCryptoStore for StoreHandle` (`store.rs` lines 134-138):
returns `self.store.clone()`, an `Arc` reference to the same backend. -/
def StoreHandle.into_crypto_store (h : StoreHandle) : DynCryptoStore :=
  h.store

/-- Result of `StoreHandle::open_indexeddb`: the `Result` value, the final
contents of the caller-supplied passphrase buffer, and the backend calls
attempted. -/
structure OpenIndexeddbResult where
  result : Except String DynCryptoStore
  passphraseFinal : Option String
  calls : List BackendCall
  deriving Repr

/-- `StoreHandle::open_indexeddb` (`store.rs` lines 77-99).  With a
passphrase, calls `IndexeddbCryptoStore::open_with_passphrase`; the `?` on
that call returns the error before `store_passphrase.zeroize()` runs, so the
passphrase buffer is zeroized only on the success path.  Without a
passphrase, calls `IndexeddbCryptoStore::open_with_name`. -/
def StoreHandle.open_indexeddb (backend : Backend) (store_name : String)
    (store_passphrase : Option String) : OpenIndexeddbResult :=
  match store_passphrase with
  | some p =>
    match backend (.openWithPassphrase store_name p) with
    | .ok store =>
        ⟨.ok (.indexeddb store), some (zeroizeStr p),
          [.openWithPassphrase store_name p]⟩
    | .error e =>
        ⟨.error e, some p, [.openWithPassphrase store_name p]⟩
  | none =>
    match backend (.openWithName store_name) with
    | .ok store => ⟨.ok (.indexeddb store), none, [.openWithName store_name]⟩
    | .error e => ⟨.error e, none, [.openWithName store_name]⟩

/-- Result of `StoreHandle::open`: the `Result` value, the final contents of
the caller-supplied passphrase buffer, and the backend calls attempted. -/
structure OpenResult where
  result : Except JsError StoreHandle
  passphraseFinal : Option String
  calls : List BackendCall
  deriving Repr

/-- The message of the error raised by `StoreHandle::open` when a passphrase
is supplied without a store name (`store.rs` lines 64-67). -/
def passphraseWithoutNameMsg : String :=
  "The `store_passphrase` has been set, but it has an effect only if `store_name` is set, which is not; please provide one"

/-- `StoreHandle::open` (`store.rs` lines 55-75).  With a `store_name`,
delegates to `open_indexeddb` (backend errors converted to `JsError`).
Without one, a supplied passphrase is rejected with a configuration error
before any store is touched; otherwise a fresh `MemoryStore` is used. -/
def StoreHandle.open (backend : Backend) (store_name : Option String)
    (store_passphrase : Option String) : OpenResult :=
  match store_name with
  | some name =>
    let r := StoreHandle.open_indexeddb backend name store_passphrase
    match r.result with
    | .ok store => ⟨.ok ⟨store⟩, r.passphraseFinal, r.calls⟩
    | .error e => ⟨.error (.storeOpen e), r.passphraseFinal, r.calls⟩
  | none =>
    match store_passphrase with
    | some p => ⟨.error (.configuration passphraseWithoutNameMsg), some p, []⟩
    | none => ⟨.ok ⟨.memory MemoryStore.new⟩, none, []⟩

/-- Result of `StoreHandle::open_with_key`: the `Result` value, the final
contents of the caller-supplied `store_key` buffer, and the backend calls
attempted. -/
structure OpenWithKeyResult where
  result : Except JsError StoreHandle
  storeKeyFinal : Buf
  calls : List BackendCall
  deriving Repr

/-- The message of the validation error raised by `open_with_key` on a key
of the wrong length (`store.rs` line 120). -/
def badKeyLengthMsg : String := "Expected a key of length 32"

/-- `StoreHandle::open_with_key` (`store.rs` lines 112-131).  The
`try_into` to `[u8; 32]` fails exactly when `store_key.len() ≠ 32`; the `?`
on it returns the validation error before `store_key.zeroize()` runs, so the
buffer is left untouched on that path.  On the length-valid path the buffer
is zeroized (after the key bytes are copied into the `Zeroizing` array)
before the backend call, so it is wiped whether that call succeeds or
fails. -/
def StoreHandle.open_with_key (backend : Backend) (store_name : String)
    (store_key : Buf) : OpenWithKeyResult :=
  if store_key.length = 32 then
    let store_key_array := store_key
    let wiped := zeroizeBuf store_key
    match backend (.openWithKey store_name store_key_array) with
    | .ok store =>
        ⟨.ok ⟨.indexeddb store⟩, wiped, [.openWithKey store_name store_key_array]⟩
    | .error e =>
        ⟨.error (.storeOpen e), wiped, [.openWithKey store_name store_key_array]⟩
  else
    ⟨.error (.validation badKeyLengthMsg), store_key, []⟩

/-- A buffer has been wiped when it no longer holds any of its original
bytes: every byte position has been overwritten with zero. -/
def wipedBuf (b : Buf) : Prop :=
  ∀ x ∈ b, x = 0

instance (b : Buf) : Decidable (wipedBuf b) := by
  unfold wipedBuf; infer_instance

/-- A string buffer has been wiped when it no longer holds any of its
original bytes: every character position has been overwritten with zero. -/
def wipedStr (s : String) : Prop :=
  ∀ c ∈ s.data, c = Char.ofNat 0

instance (s : String) : Decidable (wipedStr s) := by
  unfold wipedStr; infer_instance

/-- A backend that fails every call, for concrete counterexamples. -/
def failingBackend : Backend := fun _ => .error "backend failure"

/-- A backend that opens every store it is asked for, for concrete
witnesses. -/
def succeedingBackend : Backend := fun c =>
  match c with
  | .openWithPassphrase n _ => .ok ⟨n⟩
  | .openWithName n => .ok ⟨n⟩
  | .openWithKey n _ => .ok ⟨n⟩

end Store

namespace Secrets

/-- A JSON-like transport value, as produced and consumed by
`serde_wasm_bindgen` in `SecretsBundle::to_json` / `from_json`
(`store.rs` lines 302-312). -/
inductive Json
  | str (s : String)
  | obj (fields : List (String × Json))
  deriving Repr

/-- The backup decryption key of the external
`matrix_sdk_crypto::types` backup secrets, abstracted at this boundary by
its unpadded-base64 form (the only view `store.rs` takes of it, via
`to_base64()` on line 294). -/
structure BackupDecryptionKey where
  base64 : String
  deriving Repr, DecidableEq

/-- `BackupDecryptionKey::to_base64`. -/
def BackupDecryptionKey.to_base64 (k : BackupDecryptionKey) : String :=
  k.base64

/-- The serde tag of the single recognized backup algorithm variant. -/
def megolmBackupV1Tag : String := "m.megolm_backup.v1.curve25519-aes-sha2"

/-- `matrix_sdk_crypto::types::BackupSecrets`: the tagged backup-secrets
variant held by a `SecretsBundle`.  The enum has a single variant,
`MegolmBackupV1Curve25519AesSha2`, carrying the backup decryption key and
the backup version it applies to (matched in `store.rs` line 292). -/
inductive BackupSecrets
  | megolmBackupV1Curve25519AesSha2 (key : BackupDecryptionKey)
      (backup_version : String)
  deriving Repr, DecidableEq

/-- `matrix_sdk_crypto::types::CrossSigningSecrets`: the three cross-signing
key seeds of a `SecretsBundle`, each a mandatory unpadded-base64 string
(the accessors in `store.rs` lines 273-287 return `String`, not
`Option<String>`). -/
structure CrossSigningSecrets where
  master_key : String
  self_signing_key : String
  user_signing_key : String
  deriving Repr, DecidableEq

/-- The inner `matrix_sdk_crypto::types::SecretsBundle`: cross-signing
seeds plus an optional backup-secrets variant. -/
structure SecretsBundleInner where
  cross_signing : CrossSigningSecrets
  backup : Option BackupSecrets
  deriving Repr, DecidableEq

/-- `SecretsBundle` (`store.rs` lines 255-257): the wasm wrapper around the
inner bundle. -/
structure SecretsBundle where
  inner : SecretsBundleInner
  deriving Repr, DecidableEq

/-- `SecretsBundle::master_key` (`store.rs` lines 272-275): returns a copy
of the master-key seed. -/
def SecretsBundle.master_key (b : SecretsBundle) : String :=
  b.inner.cross_signing.master_key

/-- `SecretsBundle::self_signing_key` (`store.rs` lines 278-281). -/
def SecretsBundle.self_signing_key (b : SecretsBundle) : String :=
  b.inner.cross_signing.self_signing_key

/-- `SecretsBundle::user_signing_key` (`store.rs` lines 284-287). -/
def SecretsBundle.user_signing_key (b : SecretsBundle) : String :=
  b.inner.cross_signing.user_signing_key

/-- `BackupSecretsBundle` (`store.rs` lines 262-267): the backup-specific
parts of a secrets bundle. -/
structure BackupSecretsBundle where
  key : String
  backup_version : String
  deriving Repr, DecidableEq

/-- `SecretsBundle::backup_bundle` (`store.rs` lines 290-300): extracts the
backup key (as base64) and version exactly when the backup field holds the
`MegolmBackupV1Curve25519AesSha2` variant; the `else` arm yields `None`
for any non-matching value of the optional tagged field. -/
def SecretsBundle.backup_bundle (b : SecretsBundle) :
    Option BackupSecretsBundle :=
  match b.inner.backup with
  | some (.megolmBackupV1Curve25519AesSha2 key ver) =>
      some ⟨key.to_base64, ver⟩
  | none => none

/-- Serde encoding of `BackupSecrets`: internally tagged by `algorithm`,
with the key carried as unpadded base64 and the backup version as a
string. -/
def BackupSecrets.toJson : BackupSecrets → Json
  | .megolmBackupV1Curve25519AesSha2 key ver =>
      .obj [("algorithm", .str megolmBackupV1Tag),
            ("key", .str key.to_base64),
            ("backup_version", .str ver)]

/-- Serde decoding of `BackupSecrets`: accepts only the single recognized
`algorithm` tag with its two string fields; any other shape or tag is a
deserialization error. -/
def BackupSecrets.fromJson : Json → Except String BackupSecrets
  | .obj [("algorithm", .str alg), ("key", .str k),
          ("backup_version", .str ver)] =>
      if alg = megolmBackupV1Tag then
        .ok (.megolmBackupV1Curve25519AesSha2 ⟨k⟩ ver)
      else
        .error "unknown backup algorithm"
  | _ => .error "invalid backup secrets"

/-- Serde encoding of `CrossSigningSecrets`: three mandatory string
fields. -/
def CrossSigningSecrets.toJson (c : CrossSigningSecrets) : Json :=
  .obj [("master_key", .str c.master_key),
        ("self_signing_key", .str c.self_signing_key),
        ("user_signing_key", .str c.user_signing_key)]

/-- Serde decoding of `CrossSigningSecrets`: all three seed fields are
required; a missing field is a deserialization error. -/
def CrossSigningSecrets.fromJson : Json → Except String CrossSigningSecrets
  | .obj [("master_key", .str m), ("self_signing_key", .str s),
          ("user_signing_key", .str u)] =>
      .ok ⟨m, s, u⟩
  | _ => .error "invalid cross_signing secrets"

/-- `SecretsBundle::to_json` (`store.rs` lines 303-305): serializes the
inner bundle; the optional `backup` field is omitted when absent. -/
def SecretsBundle.to_json (b : SecretsBundle) : Except String Json :=
  match b.inner.backup with
  | some bs =>
      .ok (.obj [("cross_signing", b.inner.cross_signing.toJson),
                 ("backup", bs.toJson)])
  | none =>
      .ok (.obj [("cross_signing", b.inner.cross_signing.toJson)])

/-- `SecretsBundle::from_json` (`store.rs` lines 308-312): deserializes a
bundle, failing when the structure does not match the expected shape. -/
def SecretsBundle.from_json : Json → Except String SecretsBundle
  | .obj [("cross_signing", cs)] =>
      match CrossSigningSecrets.fromJson cs with
      | .ok c => .ok ⟨⟨c, none⟩⟩
      | .error e => .error e
  | .obj [("cross_signing", cs), ("backup", bj)] =>
      match CrossSigningSecrets.fromJson cs, BackupSecrets.fromJson bj with
      | .ok c, .ok bs => .ok ⟨⟨c, some bs⟩⟩
      | .error e, _ => .error e
      | .ok _, .error e => .error e
  | _ => .error "invalid SecretsBundle"

/-- The bundle of the serialization scenario: master seed `"MASTERSEED"`,
arbitrary (but mandatory) self-signing and user-signing seeds, and backup
secrets `("BACKUPKEY", "v3")`. -/
def scenarioBundle (s u : String) : SecretsBundle :=
  ⟨⟨⟨"MASTERSEED", s, u⟩,
    some (.megolmBackupV1Curve25519AesSha2 ⟨"BACKUPKEY"⟩ "v3")⟩⟩

end Secrets

/-! ## Helper lemmas -/

/-- Zeroizing a byte buffer wipes it: every byte becomes zero. -/
theorem wipedBuf_zeroizeBuf (b : Store.Buf) :
    Store.wipedBuf (Store.zeroizeBuf b) := by
  intro x hx
  exact List.eq_of_mem_replicate hx

/-- Zeroizing a string buffer wipes it: every character becomes zero. -/
theorem wipedStr_zeroizeStr (s : String) :
    Store.wipedStr (Store.zeroizeStr s) := by
  intro c hc
  obtain ⟨a, _, rfl⟩ := List.mem_map.mp hc
  rfl

/-! ## Claim theorems -/

/-- Claim C1, counterexample: calling `open_with_key` with the 1-byte key
`[1]` exits through the length-validation path, and the caller-supplied
buffer still holds its original byte `1` — it is not wiped before the
validation error is returned. -/
theorem C1_counterexample :
    (Store.StoreHandle.open_with_key Store.failingBackend "store" [1]).result
        = .error (.validation Store.badKeyLengthMsg)
    ∧ (Store.StoreHandle.open_with_key Store.failingBackend "store" [1]).storeKeyFinal
        = [1]
    ∧ ¬ Store.wipedBuf [1] :=
  ⟨rfl, rfl, by decide⟩

/-- Claim C1, amended: on every exit path of `open_with_key` with a 32-byte
key (backend success or backend failure) the caller-supplied `store_key`
buffer is wiped before the call returns; on the length-validation failure
path, however, the validation error is returned with the buffer left
unchanged (not wiped). -/
theorem C1_amended (backend : Store.Backend) (name : String) (key : Store.Buf) :
    (key.length = 32 →
        Store.wipedBuf (Store.StoreHandle.open_with_key backend name key).storeKeyFinal)
    ∧ (key.length ≠ 32 →
        (Store.StoreHandle.open_with_key backend name key).result
            = .error (.validation Store.badKeyLengthMsg)
        ∧ (Store.StoreHandle.open_with_key backend name key).storeKeyFinal = key) := by
  constructor
  · intro h
    unfold Store.StoreHandle.open_with_key
    simp only [if_pos h]
    cases backend (.openWithKey name key) <;> exact wipedBuf_zeroizeBuf key
  · intro h
    unfold Store.StoreHandle.open_with_key
    rw [if_neg h]
    exact ⟨rfl, rfl⟩

/-- Claim C1, amended, witness at a concrete 32-byte key. -/
theorem C1_amended_witness :
    Store.wipedBuf (Store.StoreHandle.open_with_key Store.succeedingBackend
        "store" (List.replicate 32 7)).storeKeyFinal :=
  (C1_amended Store.succeedingBackend "store" (List.replicate 32 7)).1 (by simp)

/-- Claim C2, counterexample: calling `open` with a store name and the
passphrase `"correct horse"` against a backend whose open fails returns the
store-open error with the caller-supplied passphrase buffer still holding
its original characters — it is not wiped on the failure path. -/
theorem C2_counterexample :
    (Store.StoreHandle.open Store.failingBackend
        (some "alice-device") (some "correct horse")).result
        = .error (.storeOpen "backend failure")
    ∧ (Store.StoreHandle.open Store.failingBackend
        (some "alice-device") (some "correct horse")).passphraseFinal
        = some "correct horse"
    ∧ ¬ Store.wipedStr "correct horse" :=
  ⟨rfl, rfl, by decide⟩

/-- Claim C2, amended: when `open` is called with a store name and a
passphrase, the passphrase buffer is wiped immediately after the
passphrase-derivation open call returns on the success path; on the failure
path of that call the error propagates with the buffer left unchanged. -/
theorem C2_amended (backend : Store.Backend) (name p : String) :
    (∀ s, backend (.openWithPassphrase name p) = .ok s →
        (Store.StoreHandle.open backend (some name) (some p)).passphraseFinal
            = some (Store.zeroizeStr p)
        ∧ Store.wipedStr ((Store.zeroizeStr p)))
    ∧ (∀ e, backend (.openWithPassphrase name p) = .error e →
        (Store.StoreHandle.open backend (some name) (some p)).passphraseFinal
            = some p) := by
  constructor
  · intro s hs
    unfold Store.StoreHandle.open Store.StoreHandle.open_indexeddb
    simp [hs]
    exact wipedStr_zeroizeStr p
  · intro e he
    unfold Store.StoreHandle.open Store.StoreHandle.open_indexeddb
    simp [he]

/-- Claim C2, amended, witness at a concrete succeeding backend. -/
theorem C2_amended_witness :
    (Store.StoreHandle.open Store.succeedingBackend
        (some "alice-device") (some "correct horse")).passphraseFinal
        = some (Store.zeroizeStr "correct horse")
    ∧ Store.wipedStr (Store.zeroizeStr "correct horse") :=
  (C2_amended Store.succeedingBackend "alice-device" "correct horse").1
    ⟨"alice-device"⟩ rfl

/-- Claim C3, counterexample: the transport form of the scenario bundle as
the claim states it — master seed `"MASTERSEED"`, self-signing and
user-signing seeds absent, backup secrets `("BACKUPKEY", "v3")` — is
rejected by `from_json`: the seed fields are mandatory strings, so no
bundle with absent self-signing or user-signing seeds exists, and the
accessors return strings, never an absent value. -/
theorem C3_counterexample :
    Secrets.SecretsBundle.from_json (.obj
      [("cross_signing", .obj [("master_key", .str "MASTERSEED")]),
       ("backup", .obj [("algorithm", .str Secrets.megolmBackupV1Tag),
                        ("key", .str "BACKUPKEY"),
                        ("backup_version", .str "v3")])])
      = .error "invalid cross_signing secrets" :=
  rfl

/-- Claim C3, amended: all three cross-signing seeds of a `SecretsBundle`
are mandatory strings.  For a bundle with master seed `"MASTERSEED"`, any
self-signing and user-signing seed strings, and backup secrets
`("BACKUPKEY", "v3")`, serializing with `to_json` and deserializing with
`from_json` yields the bundle back: its master seed is `"MASTERSEED"`, the
other two seeds are the strings supplied (never an absent value), and the
backup bundle carries version `"v3"`. -/
theorem C3_amended (s u : String) :
    ∃ j, (Secrets.scenarioBundle s u).to_json = .ok j
      ∧ Secrets.SecretsBundle.from_json j = .ok (Secrets.scenarioBundle s u)
      ∧ (Secrets.scenarioBundle s u).master_key = "MASTERSEED"
      ∧ (Secrets.scenarioBundle s u).self_signing_key = s
      ∧ (Secrets.scenarioBundle s u).user_signing_key = u
      ∧ Option.map (fun bb => bb.backup_version)
          (Secrets.scenarioBundle s u).backup_bundle = some "v3" :=
  ⟨_, rfl, rfl, rfl, rfl, rfl, rfl⟩

/-- Claim C4: calling `open` with no store name but a passphrase fails with
the configuration error stating that the passphrase has an effect only with
a store name, and performs no backend call (no storage I/O, no store
opened). -/
theorem C4_passphrase_without_name (backend : Store.Backend) (p : String) :
    (Store.StoreHandle.open backend none (some p)).result
        = .error (.configuration Store.passphraseWithoutNameMsg)
    ∧ (Store.StoreHandle.open backend none (some p)).calls = [] :=
  ⟨rfl, rfl⟩

/-- Claim C5: for every `SecretsBundle` — any seed strings, backup secrets
present or absent — serialization followed by deserialization succeeds and
returns a bundle equal to the original in every observable field. -/
theorem C5_roundtrip (b : Secrets.SecretsBundle) :
    ∃ j, b.to_json = .ok j ∧ Secrets.SecretsBundle.from_json j = .ok b := by
  obtain ⟨⟨⟨m, s, u⟩, backup⟩⟩ := b
  cases backup with
  | none => exact ⟨_, rfl, rfl⟩
  | some bs =>
    obtain ⟨⟨k⟩, ver⟩ := bs
    exact ⟨_, rfl, rfl⟩

/-- Claim C6: `backup_bundle` yields a value exactly when the bundle holds
the single recognized backup algorithm variant; when it does, the
extraction is complete (base64 key and backup version), and an absent
backup field yields an absent result, never a partial extraction. -/
theorem C6_backup_bundle (b : Secrets.SecretsBundle) :
    ((b.backup_bundle).isSome ↔
        ∃ k v, b.inner.backup = some (.megolmBackupV1Curve25519AesSha2 k v))
    ∧ (∀ k v, b.inner.backup = some (.megolmBackupV1Curve25519AesSha2 k v) →
        b.backup_bundle = some ⟨k.to_base64, v⟩)
    ∧ (b.inner.backup = none → b.backup_bundle = none) := by
  obtain ⟨⟨cs, backup⟩⟩ := b
  cases backup with
  | none => simp [Secrets.SecretsBundle.backup_bundle]
  | some bs =>
    obtain ⟨k, v⟩ := bs
    simp [Secrets.SecretsBundle.backup_bundle]

/-- Claim C6, witness at a concrete bundle holding backup secrets. -/
theorem C6_backup_bundle_witness :
    Secrets.SecretsBundle.backup_bundle
        ⟨⟨⟨"m", "s", "u"⟩,
          some (.megolmBackupV1Curve25519AesSha2 ⟨"BKEY"⟩ "v1")⟩⟩
      = some ⟨"BKEY", "v1"⟩ :=
  (C6_backup_bundle _).2.1 ⟨"BKEY"⟩ "v1" rfl

/-- Claim C7: for every key whose length is not 32, `open_with_key` fails
with the validation error `"Expected a key of length 32"` and performs no
backend call (no store open attempted before the validation). -/
theorem C7_bad_length (backend : Store.Backend) (name : String)
    (key : Store.Buf) (h : key.length ≠ 32) :
    (Store.StoreHandle.open_with_key backend name key).result
        = .error (.validation Store.badKeyLengthMsg)
    ∧ (Store.StoreHandle.open_with_key backend name key).calls = [] := by
  unfold Store.StoreHandle.open_with_key
  rw [if_neg h]
  exact ⟨rfl, rfl⟩

/-- Claim C7, witness at the concrete 1-byte key `[0]`. -/
theorem C7_bad_length_witness :
    (Store.StoreHandle.open_with_key Store.succeedingBackend "store" [0]).result
        = .error (.validation Store.badKeyLengthMsg)
    ∧ (Store.StoreHandle.open_with_key Store.succeedingBackend "store" [0]).calls
        = [] :=
  C7_bad_length Store.succeedingBackend "store" [0] (by decide)

/-- Claim C8: for every key of length exactly 32, `open_with_key` either
succeeds or fails with a store-open error from the backend; it never fails
with a validation error. -/
theorem C8_valid_length (backend : Store.Backend) (name : String)
    (key : Store.Buf) (h : key.length = 32) :
    ((∃ hdl, (Store.StoreHandle.open_with_key backend name key).result = .ok hdl)
      ∨ (∃ e, (Store.StoreHandle.open_with_key backend name key).result
            = .error (.storeOpen e)))
    ∧ ∀ m, (Store.StoreHandle.open_with_key backend name key).result
            ≠ .error (.validation m) := by
  unfold Store.StoreHandle.open_with_key
  simp only [if_pos h]
  cases backend (.openWithKey name key) with
  | ok store => exact ⟨.inl ⟨⟨.indexeddb store⟩, rfl⟩, by simp⟩
  | error e => exact ⟨.inr ⟨e, rfl⟩, by simp⟩

/-- Claim C8, witness at a concrete all-zero 32-byte key. -/
theorem C8_valid_length_witness :
    (∃ hdl, (Store.StoreHandle.open_with_key Store.succeedingBackend "store"
        (List.replicate 32 0)).result = .ok hdl)
    ∨ (∃ e, (Store.StoreHandle.open_with_key Store.succeedingBackend "store"
        (List.replicate 32 0)).result = .error (.storeOpen e)) :=
  (C8_valid_length Store.succeedingBackend "store" (List.replicate 32 0)
    (by simp)).1

/-- Claim C9: calling `open` with neither a store name nor a passphrase
succeeds with a handle backed by a fresh, empty in-memory store, performs
no backend call, and the resulting store is backed by no named persistent
database — its contents are reachable only through the handle and are lost
with it. -/
theorem C9_memory_open (backend : Store.Backend) :
    (Store.StoreHandle.open backend none none).result
        = .ok ⟨.memory Store.MemoryStore.new⟩
    ∧ Store.MemoryStore.new = ([] : List (String × String))
    ∧ (Store.StoreHandle.open backend none none).calls = []
    ∧ Store.DynCryptoStore.persistentName (.memory Store.MemoryStore.new) = none :=
  ⟨rfl, rfl, rfl, rfl⟩

/-- Claim C10: cloning a `StoreHandle` and converting it (or its clone) with
`into_crypto_store` all yield the very backend reference fixed at open time
— no re-open, no change of variant or parameters. -/
theorem C10_shared_backend (h : Store.StoreHandle) :
    (Store.StoreHandle.clone h).store = h.store
    ∧ Store.StoreHandle.into_crypto_store (Store.StoreHandle.clone h) = h.store
    ∧ Store.StoreHandle.into_crypto_store h = h.store :=
  ⟨rfl, rfl, rfl⟩
